import Mathlib

/-!
Verification of the agent action-resolution engine of this repository.

The development shallowly embeds the Python sources:
  * `PSI.PathModel`, `PSI.FileTools` — src/backend/tools/file_tools.py and the
    older copy of `_resolve_filepath` in src/backend/app.py (lines 100-112).
    POSIX paths are modelled as lists of characters; `os.path.abspath` of an
    absolute path is modelled as lexical normalisation (collapse empty and "."
    components, let ".." pop one component, never above the root), which is
    exactly what `abspath` computes for paths that exist or not alike.
  * `PSI.AgentCore` — the registration loop of src/backend/agent_core.py
    (`tool_functions[name] = func`), with Python dict assignment semantics.
  * `PSI.DocTools`, `PSI.SearchTools` — src/backend/tools/doc_tools.py and
    src/backend/tools/search_tools.py. Python `str.split()` without arguments
    (runs of whitespace, no empty words), `str.strip`, `str.title` and
    substring containment are modelled character by character.
  * `PSI.App` — the orchestrator route of src/backend/app.py: `call_ollama`
    (lines 191-230) and the decision handling of `chat` (lines 321-425).
  * `PSI.Route` — src/app_chat_route.py: `api_chat_route` with its placeholder
    tools, including Python's local-variable binding semantics for
    `action_type` (assigned only inside the inner `try`).

The decision backend's raw output is modelled as `RawDecision`: either text
that `json.loads` rejects, or the parsed JSON value.  The JSON grammar itself
is outside the claims; everything after `json.loads` is translated faithfully.
-/

namespace PSI

/-! ## Path model (POSIX, character level) -/

namespace PathModel

/-- Python `s.split('/')` on a list of characters: splits at every slash and
keeps empty pieces, so the result is never empty. -/
def splitSlash : List Char → List (List Char)
  | [] => [[]]
  | c :: rest =>
    if c = '/' then [] :: splitSlash rest
    else
      match splitSlash rest with
      | [] => [[c]]
      | h :: t => (c :: h) :: t

/-- One step of lexical path normalisation: empty and "." components vanish,
".." pops the last component (and is a no-op at the root), anything else is
appended. -/
def normStep (acc : List (List Char)) (c : List Char) : List (List Char) :=
  if c = [] ∨ c = ['.'] then acc
  else if c = ['.', '.'] then acc.dropLast
  else acc ++ [c]

/-- Normalised component list of a path given as raw components. -/
def normComps (cs : List (List Char)) : List (List Char) :=
  cs.foldl normStep []

/-- `os.path.abspath` of an absolute path: normalise and re-render with a
leading slash. -/
def abspathChars (p : List Char) : List Char :=
  '/' :: List.intercalate ['/'] (normComps (splitSlash p))

end PathModel

/-! ## File tools (src/backend/tools/file_tools.py and src/backend/app.py) -/

namespace FileTools

open PathModel

/-- `AGENT_WORKSPACE_DIR = os.path.expanduser('~/psi_pwa_linux_new/agent_workspace')`,
with the home directory modelled as `/home/user`. -/
def WORKSPACE : List Char := "/home/user/psi_pwa_linux_new/agent_workspace".data

/-- The normalised component list of the workspace directory. -/
def workspaceComps : List (List Char) := normComps (splitSlash WORKSPACE)

/-- A path is inside the workspace when its normalised components extend the
workspace's normalised components. -/
def insideWorkspace (p : List Char) : Bool :=
  workspaceComps.isPrefixOf (normComps (splitSlash p))

/-- `_resolve_filepath` of src/backend/tools/file_tools.py (lines 7-24):
empty check, `lstrip('/')`, rejection of any `..` path component, join with
the workspace, and the `abspath(...).startswith(abspath(workspace))` guard
(a character-level prefix test, as in Python). -/
def _resolve_filepath (filename : String) : Except String (List Char) :=
  if filename = "" then
    .error "Filename cannot be empty."
  else
    let safe := filename.data.dropWhile (fun c => c = '/')
    if ['.', '.'] ∈ splitSlash safe then
      .error ("Invalid filename: path traversal detected in '" ++ filename ++ "'.")
    else
      let filepath := WORKSPACE ++ '/' :: safe
      if (abspathChars WORKSPACE).isPrefixOf (abspathChars filepath) then
        .ok filepath
      else
        .error ("Attempted to access file outside workspace: " ++ filename)

/-- `_resolve_filepath` of src/backend/app.py (lines 100-112): the same code
except that it has no `..` component check — only the character-level
`startswith` guard. -/
def resolve_filepath_app (filename : String) : Except String (List Char) :=
  if filename = "" then
    .error "Filename cannot be empty."
  else
    let safe := filename.data.dropWhile (fun c => c = '/')
    let filepath := WORKSPACE ++ '/' :: safe
    if (abspathChars WORKSPACE).isPrefixOf (abspathChars filepath) then
      .ok filepath
    else
      .error ("Attempted to access file outside workspace: " ++ filename)

/-- The filesystem as the tools see it: existence, file-ness and contents per
path. -/
structure FileSys where
  existsAt : List Char → Bool
  isfile : List Char → Bool
  content : List Char → String

/-- Result dictionary of `read_file_tool` / `write_file_tool`, together with
the filesystem path the call touched (if it got past path resolution). -/
structure FileToolResult where
  success : Bool
  error : Option String
  content : Option String
  accessed : Option (List Char)

/-- `read_file_tool` of src/backend/tools/file_tools.py (lines 26-42). -/
def read_file_tool (fs : FileSys) (filename : String) : FileToolResult :=
  match _resolve_filepath filename with
  | .error e => ⟨false, some e, none, none⟩
  | .ok filepath =>
    if !(fs.existsAt filepath) then
      ⟨false, some ("File not found: " ++ filename), none, some filepath⟩
    else if !(fs.isfile filepath) then
      ⟨false, some ("Path is not a file: " ++ filename), none, some filepath⟩
    else
      ⟨true, none, some (fs.content filepath), some filepath⟩

/-- `write_file_tool` of src/backend/tools/file_tools.py (lines 62-74): after
resolution it creates directories and writes, always touching the resolved
path. -/
def write_file_tool (filename : String) (_content : String) : FileToolResult :=
  match _resolve_filepath filename with
  | .error e => ⟨false, some e, none, none⟩
  | .ok filepath =>
    ⟨true, none, none, some filepath⟩

/-- `read_file_tool` of src/backend/app.py (lines 114-130): identical
structure, but it resolves through the `..`-unchecked `_resolve_filepath`
of app.py. -/
def read_file_tool_app (fs : FileSys) (filename : String) : FileToolResult :=
  match resolve_filepath_app filename with
  | .error e => ⟨false, some e, none, none⟩
  | .ok filepath =>
    if !(fs.existsAt filepath) then
      ⟨false, some ("File not found: " ++ filename), none, some filepath⟩
    else if !(fs.isfile filepath) then
      ⟨false, some ("Path is not a file: " ++ filename), none, some filepath⟩
    else
      ⟨true, none, some (fs.content filepath), some filepath⟩

end FileTools

/-! ## Tool discovery (src/backend/agent_core.py) -/

namespace AgentCore

/-- Python dict assignment `d[k] = v`: replace in place when the key exists,
append otherwise. -/
def dictSet (m : List (String × Nat)) (k : String) (v : Nat) : List (String × Nat) :=
  if m.any (fun p => p.1 == k) then
    m.map (fun p => if p.1 == k then (k, v) else p)
  else
    m ++ [(k, v)]

/-- Python dict lookup. -/
def dictGet (m : List (String × Nat)) (k : String) : Option Nat :=
  (m.find? (fun p => p.1 == k)).map (fun p => p.2)

/-- The registration loop of `discover_tools` (src/backend/agent_core.py,
lines 45-48): for every discovered function it runs
`tool_functions[name] = func`.  Functions are identified by an opaque
numeric id. -/
def discover_tools (entries : List (String × Nat)) : List (String × Nat) :=
  entries.foldl (fun m e => dictSet m e.1 e.2) []

end AgentCore

/-! ## Python string primitives shared by the simulated tools -/

namespace PyStr

/-- Python `str.split()` with no separator: maximal runs of non-whitespace
characters, with no empty words.  `cur` holds the characters of the current
word in reverse. -/
def wordsAux : List Char → List Char → List (List Char)
  | [], cur => if cur = [] then [] else [cur.reverse]
  | c :: rest, cur =>
    if c.isWhitespace then
      if cur = [] then wordsAux rest [] else cur.reverse :: wordsAux rest []
    else
      wordsAux rest (c :: cur)

/-- Python `s.split()`. -/
def pyWords (s : String) : List (List Char) :=
  wordsAux s.data []

/-- Substring containment, Python `needle in hay` on strings. -/
def strContainsSub (hay needle : String) : Bool :=
  hay.data.tails.any (fun t => needle.data.isPrefixOf t)

/-- Python `s.split(sep)[-1]`: the text after the last occurrence of `sep`
(`sep` is never empty where this is used). -/
def pyLastSplit (s sep : String) : String :=
  (s.splitOn sep).getLastD ""

/-- One character of Python `str.title()`: the first letter of each run of
letters is uppercased, the rest lowercased; the flag records whether the
previous character was a letter. -/
def pyTitleStep (st : Bool × List Char) (c : Char) : Bool × List Char :=
  if c.isAlpha then
    (true, st.2 ++ [if st.1 then c.toLower else c.toUpper])
  else
    (false, st.2 ++ [c])

/-- Python `s.title()`. -/
def pyTitle (s : String) : String :=
  String.mk ((s.data.foldl pyTitleStep (false, [])).2)

end PyStr

/-! ## Simulated analysis tool (src/backend/tools/doc_tools.py) -/

namespace DocTools

open PyStr

/-- The result dictionary of `document_processing_tool`. -/
structure DocResult where
  success : Bool
  result : String
  word_count : Nat
  char_count : Nat

/-- `document_processing_tool` of src/backend/tools/doc_tools.py (lines 4-19):
`word_count = len(text_content.split())`, `char_count = len(text_content)`,
always `success: True`.  (`time.sleep` has no observable effect here.) -/
def document_processing_tool (text_content : String) : DocResult :=
  let word_count := (pyWords text_content).length
  let char_count := text_content.length
  { success := true
  , result := "Text analyzed: " ++ toString word_count ++ " words, " ++
      toString char_count ++ " characters."
  , word_count := word_count
  , char_count := char_count }

/-- Specification-side word counter, written independently of `split`: walk
the characters counting transitions from whitespace (or the start) into a
non-whitespace character.  `inWord` says whether the previous character was
part of a word. -/
def countStarts : List Char → Bool → Nat
  | [], _ => 0
  | c :: rest, inWord =>
    if c.isWhitespace then countStarts rest false
    else (if inWord then 0 else 1) + countStarts rest true

/-- Number of whitespace-separated words of a string, by transition counting. -/
def countWords (s : String) : Nat :=
  countStarts s.data false

end DocTools

/-! ## Simulated search tool (src/backend/tools/search_tools.py) -/

namespace SearchTools

open PyStr

/-- The result dictionary of `internet_search_tool`. -/
structure SearchResult where
  success : Bool
  query : String
  results : String

/-- Python dict `.get` on the `capitals` table of search_tools.py (line 21),
with its default message. -/
def capitalsGet (country : String) : String :=
  if country = "France" then "Paris"
  else if country = "Germany" then "Berlin"
  else if country = "Japan" then "Tokyo"
  else if country = "United States" then "Washington D.C."
  else "The capital of " ++ country ++ " is not in my current simulated database."

/-- `internet_search_tool` of src/backend/tools/search_tools.py (lines 5-47).
`now` stands for `datetime.now().strftime('%Y-%m-%d %H:%M:%S')`; Python
`str.strip` is modelled by `String.trim`. -/
def internet_search_tool (now : String) (query : String) : SearchResult :=
  let ql := query.toLower
  let result :=
    if strContainsSub ql "current time" || strContainsSub ql "what time is it" then
      "The current time is " ++ now ++ "."
    else if strContainsSub ql "weather in" then
      let location0 := pyTitle (pyLastSplit ql "weather in").trim
      let location := if location0 = "" then "your current location" else location0
      "Simulated Weather Report for " ++ location ++
        ": Sunny with a high of 75°F (24°C). Light breeze."
    else if strContainsSub ql "capital of" then
      capitalsGet (pyTitle (pyLastSplit ql "capital of").trim)
    else if strContainsSub ql "latest ai advancements" then
      "Simulated Search Results for 'latest AI advancements':\n" ++
      "1. New Multimodal Models: Models like GPT-4o and Google's Gemini are pushing boundaries in processing text, audio, images, and video simultaneously.\n" ++
      "2. Generative AI in Science: AI is accelerating discovery in drug development, material science, and climate modeling.\n" ++
      "3. Explainable AI (XAI): Significant research is ongoing to make AI decision-making processes more transparent and understandable.\n" ++
      "4. AI Ethics and Regulation: Increased global discussion and development of frameworks for responsible AI deployment."
    else if strContainsSub ql "how to make pasta" then
      "Simulated Recipe for Pasta:\n" ++
      "1. Boil water in a large pot. Add salt.\n" ++
      "2. Add pasta and cook according to package directions (usually 8-12 minutes).\n" ++
      "3. Drain pasta and toss with your favorite sauce.\n" ++
      "Common sauces: Marinara, Alfredo, Pesto. Enjoy!"
    else
      "Simulated Search Results for '" ++ query ++ "':\n" ++
      "1. Wikipedia: General information about " ++ query ++ ".\n" ++
      "2. News Articles: Recent developments and discussions related to " ++ query ++ ".\n" ++
      "3. Academic Papers: In-depth research and studies concerning " ++ query ++ " (if applicable)."
  { success := true, query := query, results := result }

end SearchTools

/-! ## JSON values and the decision backend's raw output -/

/-- The value `json.loads` produces on success. -/
inductive JVal where
  | jnull
  | jbool (b : Bool)
  | jnum (n : Int)
  | jstr (s : String)
  | jarr (elems : List JVal)
  | jobj (fields : List (String × JVal))

/-- The decision backend's raw output as the orchestrator sees it after
`json.loads`: either text the parser rejects (with the exception's message),
or the parsed value.  The JSON grammar itself is not at issue in any claim,
so parsing is taken as given. -/
inductive RawDecision where
  | notJson (raw emsg : String)
  | parsed (v : JVal)

/-- Python dict lookup `d.get(k)` on a parsed JSON object.  `json.loads`
keeps the last of duplicate keys, hence the search from the rear. -/
def objGet (fields : List (String × JVal)) (k : String) : Option JVal :=
  (fields.reverse.find? (fun p => p.1 == k)).map (fun p => p.2)

/-- The object's fields, when the value is an object (a `.get` on anything
else raises `AttributeError`). -/
def JVal.asObj : JVal → Option (List (String × JVal))
  | .jobj fields => some fields
  | _ => none

/-- Python truthiness of a JSON value. -/
def pyTruthy : JVal → Bool
  | .jnull => false
  | .jbool b => b
  | .jnum n => n != 0
  | .jstr s => s != ""
  | .jarr l => !l.isEmpty
  | .jobj f => !f.isEmpty

/-- Python truthiness of a `.get` result (`None` is falsy). -/
def pyTruthyOpt : Option JVal → Bool
  | none => false
  | some v => pyTruthy v

/-- Python `str()` of a JSON value, for f-string interpolation.  Containers
are abbreviated; no verified statement depends on their rendering. -/
def pyStr : JVal → String
  | .jnull => "None"
  | .jbool true => "True"
  | .jbool false => "False"
  | .jnum n => toString n
  | .jstr s => s
  | .jarr _ => "<list>"
  | .jobj _ => "<dict>"

/-- Python `str()` of a `.get` result (`None` prints as "None"). -/
def pyStrOpt : Option JVal → String
  | none => "None"
  | some v => pyStr v

/-- Python `x == "lit"` where `x` came from a `.get`: true exactly for the
equal string. -/
def isStrEq (o : Option JVal) (s : String) : Bool :=
  match o with
  | some (.jstr t) => t == s
  | _ => false

/-! ## The orchestrator route of src/backend/app.py -/

namespace App

/-- What one HTTP round trip to Ollama can produce, as `call_ollama`
distinguishes its outcomes: a 2xx response whose JSON body may or may not
carry a `response` field, a `requests` exception (connection, timeout or
`raise_for_status`), or a 2xx body that is not JSON. -/
inductive BackendResp where
  | ok (response : Option String)
  | requestException (emsg : String)
  | invalidJson

/-- What a `call_ollama` invocation returned, together with how many HTTP
attempts (`requests.post` calls) it made. -/
structure OllamaCall where
  text : String
  attempts : Nat

/-- `call_ollama` of src/backend/app.py (lines 191-230), error handling: the
function performs exactly one `requests.post`; every failure is converted
into an error string that is returned as the response text, and is never
retried. -/
def call_ollama (modelName : String) (backend : BackendResp) : OllamaCall :=
  match backend with
  | .ok response =>
    { text := response.getD "No response from AI.", attempts := 1 }
  | .requestException emsg =>
    { text := "ERROR: Failed to connect to local AI service (" ++ modelName ++
        "). Is Ollama running and model pulled? (" ++ emsg ++ ")"
    , attempts := 1 }
  | .invalidJson =>
    { text := "ERROR: Invalid response from local AI service.", attempts := 1 }

/-- A row of the `Message` table as the condensed history sees it. -/
structure HistMsg where
  sender : String
  text : String

/-- Python `l[-n:]`. -/
def lastN (n : Nat) (l : List α) : List α :=
  l.drop (l.length - n)

/-- The role tag a history message contributes to the Ollama request:
`user` and `ai` rows are kept, every other sender is dropped. -/
def roleOf (m : HistMsg) : Option (String × String) :=
  if m.sender == "user" then some ("user", m.text)
  else if m.sender == "ai" then some ("assistant", m.text)
  else none

/-- One iteration of the history loop of `call_ollama` (lines 201-205). -/
def condenseStep (acc : List (String × String)) (m : HistMsg) : List (String × String) :=
  if m.sender == "user" then acc ++ [("user", m.text)]
  else if m.sender == "ai" then acc ++ [("assistant", m.text)]
  else acc

/-- The condensed history `call_ollama` builds (lines 201-205): iterate over
`conversation_history[-5:]`, keeping only `user` and `ai` rows. -/
def condenseHistory (history : List HistMsg) : List (String × String) :=
  (lastN 5 history).foldl condenseStep []

/-- `messages_for_ollama` as assembled in lines 198-207: system prompt,
condensed history, then the new user prompt. -/
def messages_for_ollama (systemPrompt promptText : String)
    (history : List HistMsg) : List (String × String) :=
  ("system", systemPrompt) :: (condenseHistory history ++ [("user", promptText)])

/-- The parameter names of the tool functions `AVAILABLE_TOOLS` maps to
(src/backend/app.py lines 114, 132, 146, 162 and 183-188); `none` for a name
that is not a key of `AVAILABLE_TOOLS`. -/
def toolParams : String → Option (List String)
  | "read_file" => some ["filename"]
  | "write_file" => some ["filename", "content"]
  | "document_analysis" => some ["text_content"]
  | "internet_search" => some ["query"]
  | _ => none

/-- Python `tool_name in AVAILABLE_TOOLS` where `tool_name` came from a
`.get`: only a registered string key passes (a non-string is simply not a
key). -/
def isAvailableTool (o : Option JVal) : Bool :=
  match o with
  | some (.jstr s) => (toolParams s).isSome
  | _ => false

/-- Whether `tool_func(**tool_args)` binds: CPython requires every declared
parameter to be supplied (the tools declare no defaults) and rejects unknown
keyword names. -/
def hasKey (args : List (String × JVal)) (k : String) : Bool :=
  args.any (fun p => p.1 == k)

/-- Keyword binding check for `tool_func(**tool_args)`. -/
def bindOk (params : List String) (args : List (String × JVal)) : Bool :=
  params.all (hasKey args) && args.all (fun p => params.contains p.1)

/-- The decoded classification of one raw orchestrator output, as the
`try` block of `chat` (lines 328-334, 375-377, 394-399) computes it:
`json.loads`, then `.get("action_type")` compared against the three literal
action types.  `notDict` is the `AttributeError` of calling `.get` on a
non-object. -/
inductive DecisionClass where
  | malformed (raw emsg : String)
  | notDict
  | toolCall (toolName : Option JVal) (toolArgs : JVal)
  | llmCall (llmModel : Option JVal) (subPrompt : Option JVal)
  | direct (response : Option JVal)
  | unhandled (actionType : Option JVal)

/-- Decode step of `chat`: lines 328-334 (`json.loads`,
`orchestrator_decision.get("action_type")`, `.get("tool_name")`,
`.get("tool_args", {})`), lines 375-377 (`.get("llm_model")`,
`.get("sub_prompt")`) and line 395 (`.get("response", ...)` deferred to the
dispatch).  It reads nothing but the raw text. -/
def classify : RawDecision → DecisionClass
  | .notJson raw emsg => .malformed raw emsg
  | .parsed v =>
    match v.asObj with
    | none => .notDict
    | some obj =>
      let actionType := objGet obj "action_type"
      if isStrEq actionType "tool_call" then
        .toolCall (objGet obj "tool_name") ((objGet obj "tool_args").getD (.jobj []))
      else if isStrEq actionType "llm_call" then
        .llmCall (objGet obj "llm_model") (objGet obj "sub_prompt")
      else if isStrEq actionType "orchestrator_response" then
        .direct (objGet obj "response")
      else
        .unhandled actionType

/-- Everything one request through `chat`'s orchestration section produces:
the final answer and `agent_action`, the tool call expressions evaluated
(`tool_func(**tool_args)`), the tool bodies that actually ran, the delegate
(`call_ollama`) invocations with their sub-prompts, and the `system-info`
rows written to the `Message` table as `(text, agent_action)` pairs. -/
structure CoreOut where
  aiResponse : String
  agentAction : String
  callAttempts : List (String × List (String × JVal))
  bodiesRun : List (String × List (String × JVal))
  delegateCalls : List (String × String)
  sysInfos : List (String × String)

/-- The `system-info` row written before orchestration (lines 317-319). -/
def reasoningEvent : String × String :=
  ("Agent is reasoning about your request...", "orchestrating")

/-- Assemble a `CoreOut`: the reasoning row, the mid-branch rows, then the
final `system_info_message_text` row written at lines 416-418 (its
`agent_action` is the request's final one). -/
def mkOut (ai action : String)
    (attempts bodies : List (String × List (String × JVal)))
    (dels : List (String × String))
    (mid : List (String × String)) (finalSys : String) : CoreOut :=
  ⟨ai, action, attempts, bodies, dels, reasoningEvent :: (mid ++ [(finalSys, action)])⟩

/-- The generic `except Exception` handler of lines 409-413: answer, action
and `system_info_message_text` all describe the unexpected error. -/
def unexpectedOut (emsg : String)
    (attempts bodies : List (String × List (String × JVal)))
    (dels : List (String × String))
    (mid : List (String × String)) : CoreOut :=
  mkOut ("An unexpected error occurred during orchestration: " ++ emsg)
    "orchestration_error" attempts bodies dels mid
    ("Orchestration Error: An unexpected error occurred (" ++ emsg ++ ").")

/-- Python `d['k']`: `KeyError` when absent. -/
def objIndex (fields : List (String × JVal)) (k : String) : Except String JVal :=
  match objGet fields k with
  | some v => .ok v
  | none => .error ("KeyError: '" ++ k ++ "'")

/-- Python `v[:500]` on a tool output field.  The registered executors put
strings there; slicing any other value is coarsely modelled as the
`TypeError` non-subscriptable values raise (no verified statement exercises
a non-string here). -/
def pySlice500 (v : JVal) : Except String String :=
  match v with
  | .jstr s => .ok (s.take 500)
  | _ => .error "TypeError: value is not subscriptable"

/-- The per-tool success formatting of lines 346-365.  Returns the answer,
the `agent_action` and the final `system_info_message_text`; a raised
`KeyError`/`TypeError` is the `Except.error` case.  `staleSys` is the
`system_info_message_text` left from tool selection, which the final `else`
arm (lines 363-365) does not overwrite. -/
def formatToolSuccess (name staleSys : String) (outObj : List (String × JVal)) :
    Except String (String × String × String) :=
  if name == "read_file" then do
    let fn ← objIndex outObj "filename"
    let contentV ← objIndex outObj "content"
    let content ← pySlice500 contentV
    .ok ( "Content of '" ++ pyStr fn ++ "':\\n```\\n" ++ content ++
            "...\\n```\\n(Content truncated for display if too long)"
        , "file_read_success"
        , "Tool Used: Read file '" ++ pyStr fn ++ "' successfully.")
  else if name == "write_file" then do
    let fn ← objIndex outObj "filename"
    let msg ← (match objGet outObj "message" with
      | none => Except.ok ""
      | some (.jstr s) => Except.ok s
      | some _ => Except.error "TypeError: can only concatenate str to str")
    .ok ( "Content written to '" ++ pyStr fn ++ "'. " ++ msg
        , "file_write_success"
        , "Tool Used: Wrote to file '" ++ pyStr fn ++ "' successfully.")
  else if name == "document_analysis" then do
    let res ← objIndex outObj "result"
    .ok ( "Document analyzed. " ++ pyStr res
        , "tool_used"
        , "Tool Used: Document analysis successfully. " ++ pyStr res)
  else if name == "internet_search" then do
    let q ← objIndex outObj "query"
    let rs ← objIndex outObj "results"
    .ok ( "Search results for '" ++ pyStr q ++ "':\\n" ++ pyStr rs
        , "internet_search_success"
        , "Tool Used: Internet search for '" ++ pyStr q ++ "' successfully.")
  else
    -- Unreachable for registered names; `json.dumps(tool_output)` in the
    -- default of line 364 is abbreviated, nothing verified depends on it.
    .ok ( "Tool '" ++ name ++ "' executed successfully. Result: " ++
            (match objGet outObj "result" with
             | some v => pyStr v
             | none => "<json>")
        , "tool_used"
        , staleSys)

/-- The tool failure formatting of lines 366-369. -/
def formatToolFailure (name : String) (outObj : List (String × JVal)) :
    String × String × String :=
  ( "Tool '" ++ name ++ "' failed. Error: " ++
      (match objGet outObj "error" with
       | some v => pyStr v
       | none => "Unknown error.")
  , name ++ "_failure"
  , "Tool Failed: " ++ name ++ ". Error: " ++
      (match objGet outObj "error" with
       | some v => pyStr v
       | none => "N/A"))

/-- An approximation of CPython's `TypeError` message for a keyword-binding
failure of `tool_func(**tool_args)`; only its occurrence matters to the
verified statements, not its wording. -/
def bindErrorMsg (fname : String) (params : List String)
    (args : List (String × JVal)) : String :=
  let missing := params.filter (fun p => !hasKey args p)
  if missing.isEmpty then
    "TypeError: " ++ fname ++ "() got an unexpected keyword argument"
  else
    "TypeError: " ++ fname ++ "() missing required positional arguments: " ++
      String.intercalate ", " missing

/-- The dispatch of `chat` over the decoded decision (lines 332-418).
`toolRun` stands for the registered tool functions (filesystem, clock and
all); `delegate` is `call_ollama` as invoked for an `llm_call`
(model name, system prompt, sub-prompt).  The original user message is a
parameter to make its non-use in every fallback branch checkable. -/
def chatDispatch (_userMessage profileAddition : String)
    (toolRun : String → List (String × JVal) → JVal)
    (delegate : String → String → String → String) :
    DecisionClass → CoreOut
  | .malformed raw emsg =>
      mkOut ("Orchestrator response was not valid JSON. Error: " ++ emsg ++
          ". Raw response: " ++ raw)
        "orchestration_error" [] [] [] []
        ("Orchestration Error: JSON parsing failed (" ++ emsg ++ ").")
  | .notDict =>
      unexpectedOut "AttributeError: object has no attribute get" [] [] [] []
  | .toolCall toolName toolArgs =>
      if isAvailableTool toolName then
        let name := pyStrOpt toolName
        let selSys := "Agent selected tool: '" ++ name ++ "'"
        let mid := [(selSys, "tool_selection")]
        match toolArgs.asObj with
        | none =>
          unexpectedOut "TypeError: argument after ** must be a mapping"
            [] [] [] mid
        | some args =>
          let params := (toolParams name).getD []
          if bindOk params args then
            match (toolRun name args).asObj with
            | none =>
              unexpectedOut "AttributeError: tool output has no attribute get"
                [(name, args)] [(name, args)] [] mid
            | some outObj =>
              if pyTruthyOpt (objGet outObj "success") then
                match formatToolSuccess name selSys outObj with
                | .ok (ai, action, sys) =>
                  mkOut ai action [(name, args)] [(name, args)] [] mid sys
                | .error e =>
                  unexpectedOut e [(name, args)] [(name, args)] [] mid
              else
                match formatToolFailure name outObj with
                | (ai, action, sys) =>
                  mkOut ai action [(name, args)] [(name, args)] [] mid sys
          else
            unexpectedOut (bindErrorMsg name params args) [(name, args)] [] [] mid
      else
        mkOut ("Orchestrator requested unknown tool: " ++ pyStrOpt toolName ++ ".")
          "orchestration_error" [] [] [] []
          ("Orchestration Error: Unknown tool '" ++ pyStrOpt toolName ++ "'.")
  | .llmCall llmModel subPrompt =>
      if isStrEq llmModel "deepseek-coder" || isStrEq llmModel "mistral" then
        -- Line 380 slices `sub_prompt[:50]` before anything else: a `None`
        -- or otherwise unsliceable sub-prompt raises there.
        match subPrompt with
        | some (.jstr sp) =>
          let model := pyStrOpt llmModel
          let selSys := "Agent selected LLM: '" ++ model ++ "' to generate response."
          let llmSystemPrompt := profileAddition ++
            "\\n\\nYour primary goal is to respond to the user based on the following refined prompt."
          mkOut (delegate model llmSystemPrompt sp)
            ("llm_" ++ model.replace "-" "_") [] [] [(model, sp)]
            [(selSys, "llm_selection")] selSys
        | _ =>
          unexpectedOut "TypeError: value is not subscriptable" [] [] [] []
      else
        mkOut ("Orchestrator requested unknown LLM: " ++ pyStrOpt llmModel ++ ".")
          "orchestration_error" [] [] [] []
          ("Orchestration Error: Unknown LLM '" ++ pyStrOpt llmModel ++ "'.")
  | .direct response =>
      mkOut (match response with
             | some v => pyStr v
             | none => "Orchestrator responded directly.")
        "orchestrator_direct" [] [] [] [] "Orchestrator responded directly."
  | .unhandled _ =>
      mkOut "Orchestrator returned an unhandled action type."
        "orchestration_error" [] [] [] [] "Orchestration Error: Unhandled action type."

/-- One request through `chat`'s orchestration section together with the
decoded decision.  There is exactly one decision-backend consultation per
request (line 321 is the only `call_ollama` for orchestration and stands
outside any loop), so the function consumes exactly one `RawDecision`. -/
structure ChatOutcome extends CoreOut where
  decision : DecisionClass

/-- `chat` of src/backend/app.py (lines 321-425), from the orchestrator's
raw output to the response: decode (`classify`), then dispatch. -/
def chat (userMessage profileAddition : String)
    (toolRun : String → List (String × JVal) → JVal)
    (delegate : String → String → String → String)
    (d : RawDecision) : ChatOutcome :=
  { chatDispatch userMessage profileAddition toolRun delegate (classify d) with
    decision := classify d }

end App

/-! ## The chat route of src/app_chat_route.py -/

namespace Route

/-- Python `x is None` for a `.get` result: a missing key or a JSON `null`
both give `None`. -/
def pyIsNone : Option JVal → Bool
  | none => true
  | some .jnull => true
  | some _ => false

/-- Result of one placeholder tool (lines 56-69): success flag, content (for
`read_file`) and error text. -/
structure PResult where
  success : Bool
  content : Option String
  error : Option String

/-- `read_file_tool` placeholder (lines 56-59): succeeds exactly on
`"test.txt"`. -/
def read_file_tool (filename : JVal) : PResult :=
  if (match filename with
      | .jstr s => s == "test.txt"
      | _ => false) then
    ⟨true, some "Content of test.txt", none⟩
  else
    ⟨false, none, some ("File '" ++ pyStr filename ++ "' not found.")⟩

/-- `document_analysis_tool` placeholder (lines 65-69): `doc_source` is never
falsy, so the error branch is dead and the result is always a success. -/
def document_analysis_tool (filename _document_content analysis_query : Option JVal) :
    Bool × String :=
  let doc_source := if pyTruthyOpt filename then pyStrOpt filename else "provided text"
  (true, "Analysis of '" ++ doc_source ++ "' for query '" ++
    pyStrOpt analysis_query ++ "': Key insights found.")

/-- What one request through `api_chat_route` produced when it returned
normally: the answer, `agent_action`, the target-LLM `call_ollama`
invocations as (model, prompt) pairs, the placeholder tool bodies that ran,
and the system-role `Message` rows added. -/
structure RouteOut where
  aiResponse : String
  agentAction : String
  delegateCalls : List (String × String)
  toolBodies : List String
  sysMessages : List String

/-- A request either returns a JSON payload or lets an exception escape to
Flask; in the latter case `partialOut` holds the effects (delegate calls,
database rows) that had already happened. -/
inductive RouteResult where
  | returned (out : RouteOut)
  | escaped (err : String) (partialOut : RouteOut)

/-- Whether the request ended with an exception reaching the caller. -/
def RouteResult.isEscaped : RouteResult → Bool
  | .returned _ => false
  | .escaped _ _ => true

/-- The answer of a normally-returned request (empty for an escape: Flask
sends a 500, not the computed answer). -/
def RouteResult.answer : RouteResult → String
  | .returned out => out.aiResponse
  | .escaped _ _ => ""

/-- The delegate invocations made before the request ended. -/
def RouteResult.delegates : RouteResult → List (String × String)
  | .returned out => out.delegateCalls
  | .escaped _ out => out.delegateCalls

/-- The placeholder tool bodies that ran before the request ended. -/
def RouteResult.bodies : RouteResult → List String
  | .returned out => out.toolBodies
  | .escaped _ out => out.toolBodies

/-- The system-role `Message` rows written before the request ended. -/
def RouteResult.sysRows : RouteResult → List String
  | .returned out => out.sysMessages
  | .escaped _ out => out.sysMessages

/-- The code after the outer `try` (lines 297-320).  Line 317 evaluates
`system_info_message_content and action_type not in [...]`: when the first
conjunct is truthy Python must read `action_type`, and if the inner `try`
never assigned it (`actionTypeBound = none`) an `UnboundLocalError` escapes
to Flask — there is no handler at this point. -/
def finishRoute (ai action : String) (dels : List (String × String))
    (bodies : List String) (sys : List String)
    (sysInfo : Option String) (actionTypeBound : Option (Option JVal)) : RouteResult :=
  match sysInfo with
  | none => .returned ⟨ai, action, dels, bodies, sys⟩
  | some s =>
    if s == "" then .returned ⟨ai, action, dels, bodies, sys⟩
    else
      match actionTypeBound with
      | none =>
        .escaped "UnboundLocalError: local variable action_type referenced before assignment"
          ⟨ai, action, dels, bodies, sys⟩
      | some _ => .returned ⟨ai, action, dels, bodies, sys⟩

/-- The answer and `agent_action` the outer `except Exception` handler
(lines 289-295) leaves behind. -/
def handlerAnswer : String := "An unexpected error occurred in the chat processing."

/-- `api_chat_route` of src/app_chat_route.py (lines 105-320), from the
orchestrator's raw output to the HTTP outcome.  `delegate` is `call_ollama`
as used for target-LLM calls (model name, prompt); `d` stands for
`json.loads(call_ollama("mistral", orchestrator_prompt))` at lines 153-157.

The inner `try` (lines 156-161) is the only place `action_type` is
assigned: on a `json.JSONDecodeError` the except arm (lines 162-171) runs
the fallback, then line 175 reads the still-unbound `action_type`, the
outer handler catches that, and line 317 reads it again outside any
handler. -/
def api_chat_route (userMessage : String)
    (delegate : String → String → String) (d : RawDecision) : RouteResult :=
  match d with
  | .notJson raw _emsg =>
    let sysInfo := "System Error: Orchestrator response was not valid JSON. Raw: " ++ raw
    -- Lines 166-171: fallback call with the original user message, system
    -- error row added; then line 175 raises UnboundLocalError, and lines
    -- 289-295 replace answer and action and add an "API Exception" row.
    let _fallbackAnswer := delegate "mistral" userMessage
    finishRoute handlerAnswer "chat_api_exception"
      [("mistral", userMessage)] []
      [sysInfo, "API Exception: UnboundLocalError: local variable action_type referenced before assignment"]
      (some sysInfo) none
  | .parsed v =>
    match v.asObj with
    | none =>
      -- Line 158: `.get` on a non-object raises AttributeError; the outer
      -- handler runs; `system_info_message_content` is still None, so line
      -- 317 short-circuits and the request returns normally.
      finishRoute handlerAnswer "chat_api_exception" [] []
        ["API Exception: AttributeError: object has no attribute get"] none none
    | some obj =>
      let actionType := objGet obj "action_type"
      let detailsV := (objGet obj "details").getD (.jobj [])
      if isStrEq actionType "tool_call" then
        match detailsV.asObj with
        | none =>
          -- Line 176 `.get` on non-object details raises; outer handler;
          -- no system_info was set, so the return is normal.
          finishRoute handlerAnswer "chat_api_exception" [] []
            ["API Exception: AttributeError: object has no attribute get"]
            none (some actionType)
        | some dObj =>
          let toolName := objGet dObj "tool_name"
          let sysInfo := "Orchestrator selected tool: " ++ pyStrOpt toolName ++ "."
          if isStrEq toolName "read_file" then
            let filename := objGet dObj "filename"
            if pyTruthyOpt filename then
              let fv := filename.getD .jnull
              let result := read_file_tool fv
              if result.success then
                finishRoute
                  ("Successfully read '" ++ pyStr fv ++ "'. Content:\n" ++
                    (result.content.getD "None"))
                  ("tool_" ++ pyStrOpt toolName ++ "_success") [] ["read_file"]
                  [sysInfo,
                   "Tool Used: read_file. File: " ++ pyStr fv ++ ". Status: Success."]
                  (some sysInfo) (some actionType)
              else
                finishRoute
                  ("Error reading file '" ++ pyStr fv ++ "': " ++ (result.error.getD "None"))
                  ("tool_" ++ pyStrOpt toolName ++ "_failed") [] ["read_file"]
                  [sysInfo,
                   "Tool Used: read_file. File: " ++ pyStr fv ++ ". Status: Failed. Error: " ++
                     (result.error.getD "None")]
                  (some sysInfo) (some actionType)
            else
              finishRoute "Error: 'filename' not provided for read_file tool."
                ("tool_" ++ pyStrOpt toolName ++ "_failed") [] []
                [sysInfo, "Tool Used: read_file. Status: Failed. Error: Missing filename."]
                (some sysInfo) (some actionType)
          else if isStrEq toolName "write_file" then
            let filename := objGet dObj "filename"
            let content := objGet dObj "content"
            if pyTruthyOpt filename && !(pyIsNone content) then
              -- The placeholder write_file_tool (lines 61-63) always succeeds.
              finishRoute ("Successfully wrote to '" ++ pyStrOpt filename ++ "'.")
                ("tool_" ++ pyStrOpt toolName ++ "_success") [] ["write_file"]
                [sysInfo,
                 "Tool Used: write_file. File: " ++ pyStrOpt filename ++ ". Status: Success."]
                (some sysInfo) (some actionType)
            else
              finishRoute "Error: 'filename' or 'content' not provided for write_file tool."
                ("tool_" ++ pyStrOpt toolName ++ "_failed") [] []
                [sysInfo,
                 "Tool Used: write_file. Status: Failed. Error: Missing filename or content."]
                (some sysInfo) (some actionType)
          else if isStrEq toolName "document_analysis" then
            let filename := objGet dObj "filename"
            let doc := objGet dObj "document_content"
            let aq := objGet dObj "analysis_query"
            if (pyTruthyOpt filename || pyTruthyOpt doc) && pyTruthyOpt aq then
              let result := document_analysis_tool filename doc aq
              finishRoute ("Document Analysis Result: " ++ result.2)
                ("tool_" ++ pyStrOpt toolName ++ "_success") [] ["document_analysis"]
                [sysInfo,
                 "Tool Used: document_analysis. Source: " ++
                   (if pyTruthyOpt filename then pyStrOpt filename else "text") ++
                   ". Query: " ++ pyStrOpt aq ++ ". Status: Success."]
                (some sysInfo) (some actionType)
            else
              finishRoute
                "Error: Missing parameters for document_analysis tool (filename/document_content or analysis_query)."
                ("tool_" ++ pyStrOpt toolName ++ "_failed") [] []
                [sysInfo, "Tool Used: document_analysis. Status: Failed. Error: Missing parameters."]
                (some sysInfo) (some actionType)
          else
            finishRoute
              ("Error: Unknown tool '" ++ pyStrOpt toolName ++ "' selected by orchestrator.")
              ("tool_" ++ pyStrOpt toolName ++ "_failed") [] []
              [sysInfo,
               "Tool Used: Unknown (" ++ pyStrOpt toolName ++
                 "). Status: Failed. Error: Orchestrator selected an unrecognized tool."]
              (some sysInfo) (some actionType)
      else if isStrEq actionType "llm_call" then
        match detailsV.asObj with
        | none =>
          finishRoute handlerAnswer "chat_api_exception" [] []
            ["API Exception: AttributeError: object has no attribute get"]
            none (some actionType)
        | some dObj =>
          let llmModel := objGet dObj "llm_model"
          let sub := objGet dObj "sub_prompt"
          match sub with
          | some (.jstr sp) =>
            let sysInfo := "Orchestrator selected LLM: " ++ pyStrOpt llmModel ++
              " with sub-prompt: '" ++ sp.take 50 ++ "...'"
            if pyTruthyOpt llmModel && sp != "" then
              let model := pyStrOpt llmModel
              finishRoute (delegate model sp) ("llm_" ++ model ++ "_success")
                [(model, sp)] [] [sysInfo] (some sysInfo) (some actionType)
            else
              -- Lines 266-271: the error answer is immediately overwritten by
              -- a fallback call to mistral with the original user message.
              finishRoute (delegate "mistral" userMessage)
                "llm_mistral_fallback_bad_orchestrator_llm_call"
                [("mistral", userMessage)] [] [sysInfo] (some sysInfo) (some actionType)
          | _ =>
            -- Line 249 slices `sub_prompt[:50]` while building the f-string:
            -- a None or otherwise unsliceable sub-prompt raises there, before
            -- system_info is assigned.  (A JSON array would slice; no
            -- verified statement passes one.)
            finishRoute handlerAnswer "chat_api_exception" [] []
              ["API Exception: TypeError: value is not subscriptable"]
              none (some actionType)
      else
        -- Line 274's `elif not action_type and system_info_message_content`
        -- is unreachable here: system_info_message_content is still None on
        -- every path that reaches it with the inner try succeeded.  The
        -- final else (lines 277-286) falls back to mistral with the
        -- original user message.
        let sysInfo := "System Error: Orchestrator returned unrecognized action_type '" ++
          pyStrOpt actionType ++ "' or missing details."
        finishRoute (delegate "mistral" userMessage)
          "llm_mistral_fallback_unrecognized_action"
          [("mistral", userMessage)] [] [sysInfo] (some sysInfo) (some actionType)

end Route

/-! ## Supporting lemmas -/

theorem str_data_append (a b : String) : (a ++ b).data = a.data ++ b.data := rfl

theorem append_ne_empty (a b : String) (h : a.data ≠ []) : a ++ b ≠ "" := by
  intro he
  have hd : (a ++ b).data = [] := by rw [he]
  rw [str_data_append] at hd
  exact h (List.append_eq_nil.mp hd).1

theorem data_append_ne (a b : String) (h : a.data ≠ []) : (a ++ b).data ≠ [] := by
  rw [str_data_append]
  intro he
  exact h (List.append_eq_nil.mp he).1

theorem capitalsGet_ne (c : String) : SearchTools.capitalsGet c ≠ "" := by
  unfold SearchTools.capitalsGet
  repeat' split
  all_goals first
    | decide
    | (apply append_ne_empty; repeat' apply data_append_ne
       decide)

theorem search_total (now q : String) :
    (SearchTools.internet_search_tool now q).success = true ∧
    (SearchTools.internet_search_tool now q).results ≠ "" := by
  refine ⟨rfl, ?_⟩
  unfold SearchTools.internet_search_tool
  dsimp only
  repeat' split
  all_goals first
    | exact capitalsGet_ne _
    | (apply append_ne_empty; repeat' apply data_append_ne
       decide)

theorem wordsAux_length (cs : List Char) : ∀ cur,
    (PyStr.wordsAux cs cur).length =
      (if cur = [] then 0 else 1) + DocTools.countStarts cs (!cur.isEmpty) := by
  induction cs with
  | nil =>
    intro cur
    cases cur <;> simp [PyStr.wordsAux, DocTools.countStarts]
  | cons c rest ih =>
    intro cur
    by_cases hw : c.isWhitespace <;> by_cases hc : cur = [] <;>
      simp [PyStr.wordsAux, DocTools.countStarts, hw, hc, ih, List.isEmpty_iff] <;>
      omega

theorem word_count_eq (s : String) :
    (DocTools.document_processing_tool s).word_count = DocTools.countWords s := by
  show (PyStr.pyWords s).length = DocTools.countWords s
  unfold PyStr.pyWords DocTools.countWords
  rw [wordsAux_length]
  simp

theorem dictSet_cons (p : String × Nat) (rest : List (String × Nat)) (k : String) (v : Nat) :
    AgentCore.dictSet (p :: rest) k v =
      if p.1 == k then (k, v) :: rest.map (fun q => if q.1 == k then (k, v) else q)
      else p :: AgentCore.dictSet rest k v := by
  by_cases hp : p.1 = k <;> by_cases hr : rest.any (fun q => q.1 == k) <;>
    simp [AgentCore.dictSet, hp, hr]

theorem condenseStep_eq (acc : List (String × String)) (m : App.HistMsg) :
    App.condenseStep acc m = acc ++ (App.roleOf m).toList := by
  unfold App.condenseStep App.roleOf
  by_cases h1 : m.sender == "user" <;> by_cases h2 : m.sender == "ai" <;> simp [h1, h2]

theorem foldl_condenseStep (l : List App.HistMsg) (acc : List (String × String)) :
    l.foldl App.condenseStep acc = acc ++ l.filterMap App.roleOf := by
  induction l generalizing acc with
  | nil => simp
  | cons m rest ih =>
    simp only [List.foldl_cons, condenseStep_eq, List.filterMap_cons]
    rw [ih]
    cases h : App.roleOf m <;> simp [h, List.append_assoc]

theorem condenseHistory_eq (h : List App.HistMsg) :
    App.condenseHistory h = (App.lastN 5 h).filterMap App.roleOf := by
  unfold App.condenseHistory
  rw [foldl_condenseStep]
  simp

theorem filterMap_roleOf_all (l : List App.HistMsg)
    (hall : ∀ m ∈ l, m.sender = "user" ∨ m.sender = "ai") :
    l.filterMap App.roleOf =
      l.map (fun m => (if m.sender == "user" then "user" else "assistant", m.text)) := by
  induction l with
  | nil => simp
  | cons m rest ih =>
    have hm := hall m (List.mem_cons_self m rest)
    have hrest : ∀ x ∈ rest, x.sender = "user" ∨ x.sender = "ai" :=
      fun x hx => hall x (List.mem_cons_of_mem m hx)
    rcases hm with h | h <;>
      simp [List.filterMap_cons, App.roleOf, h, ih hrest]

theorem splitSlash_ne_nil (l : List Char) : PathModel.splitSlash l ≠ [] := by
  induction l with
  | nil => simp [PathModel.splitSlash]
  | cons c rest ih =>
    unfold PathModel.splitSlash
    by_cases hc : c = '/'
    · simp [hc]
    · simp only [hc, if_false]
      cases h : PathModel.splitSlash rest with
      | nil => exact absurd h ih
      | cons a t => simp

theorem splitSlash_append (a b : List Char) :
    PathModel.splitSlash (a ++ '/' :: b) =
      PathModel.splitSlash a ++ PathModel.splitSlash b := by
  induction a with
  | nil => simp [PathModel.splitSlash]
  | cons c a2 ih =>
    by_cases hc : c = '/'
    · subst hc
      simp [PathModel.splitSlash, ih]
    · cases h : PathModel.splitSlash a2 with
      | nil => exact absurd h (splitSlash_ne_nil a2)
      | cons x t =>
        simp only [List.cons_append, PathModel.splitSlash, hc, if_false]
        have ih2 : PathModel.splitSlash (a2.append ('/' :: b)) =
            PathModel.splitSlash a2 ++ PathModel.splitSlash b := ih
        rw [ih2, h]
        simp

theorem foldl_normStep_no_dots (l : List (List Char)) :
    ∀ acc, ['.', '.'] ∉ l →
      l.foldl PathModel.normStep acc =
        acc ++ l.filter (fun c => if c = [] ∨ c = ['.'] then false else true) := by
  induction l with
  | nil => intro acc _; simp
  | cons c rest ih =>
    intro acc hm
    have hc : c ≠ ['.', '.'] := fun he => hm (he ▸ List.mem_cons_self c rest)
    have hrest : ['.', '.'] ∉ rest := fun hr => hm (List.mem_cons_of_mem c hr)
    by_cases h1 : c = [] ∨ c = ['.']
    · simp only [List.foldl_cons, PathModel.normStep, if_pos h1, List.filter_cons]
      rw [ih acc hrest]
      simp [h1]
    · simp only [List.foldl_cons, PathModel.normStep, if_neg h1, if_neg hc, List.filter_cons]
      rw [ih (acc ++ [c]) hrest]
      simp [h1, List.append_assoc]

theorem isPrefixOf_append (a b : List (List Char)) : a.isPrefixOf (a ++ b) = true := by
  induction a with
  | nil => simp [List.isPrefixOf]
  | cons x t ih => simp [List.isPrefixOf, ih]

theorem resolve_inside (filename : String) (p : List Char)
    (h : FileTools._resolve_filepath filename = .ok p) :
    FileTools.insideWorkspace p = true := by
  unfold FileTools._resolve_filepath at h
  by_cases h0 : filename = ""
  · simp [h0] at h
  · simp only [h0, if_false] at h
    set safe := filename.data.dropWhile (fun c => c = '/') with hsafe
    by_cases h1 : ['.', '.'] ∈ PathModel.splitSlash safe
    · simp [h1] at h
    · simp only [h1, if_false] at h
      by_cases h2 : (PathModel.abspathChars FileTools.WORKSPACE).isPrefixOf
          (PathModel.abspathChars (FileTools.WORKSPACE ++ '/' :: safe)) = true
      · simp only [h2, if_true, Except.ok.injEq] at h
        subst h
        unfold FileTools.insideWorkspace FileTools.workspaceComps
        rw [splitSlash_append]
        unfold PathModel.normComps
        rw [List.foldl_append]
        rw [foldl_normStep_no_dots _ _ h1]
        exact isPrefixOf_append _ _
      · simp [h2] at h

theorem finishRoute_bodies (ai a : String) (dels : List (String × String))
    (bodies sys : List String) (si : Option String) (atb : Option (Option JVal)) :
    (Route.finishRoute ai a dels bodies sys si atb).bodies = bodies := by
  unfold Route.finishRoute
  repeat' split
  all_goals rfl

theorem finishRoute_delegates (ai a : String) (dels : List (String × String))
    (bodies sys : List String) (si : Option String) (atb : Option (Option JVal)) :
    (Route.finishRoute ai a dels bodies sys si atb).delegates = dels := by
  unfold Route.finishRoute
  repeat' split
  all_goals rfl

theorem finishRoute_sysRows (ai a : String) (dels : List (String × String))
    (bodies sys : List String) (si : Option String) (atb : Option (Option JVal)) :
    (Route.finishRoute ai a dels bodies sys si atb).sysRows = sys := by
  unfold Route.finishRoute
  repeat' split
  all_goals rfl

theorem finishRoute_answer_some (ai a : String) (dels : List (String × String))
    (bodies sys : List String) (si : Option String) (x : Option JVal) :
    (Route.finishRoute ai a dels bodies sys si (some x)).answer = ai := by
  unfold Route.finishRoute
  repeat' split
  all_goals first
    | rfl
    | simp_all

theorem chatDispatch_short (um pa : String)
    (t : String → List (String × JVal) → JVal) (g : String → String → String → String)
    (c : App.DecisionClass) :
    (App.chatDispatch um pa t g c).bodiesRun.length ≤ 1 ∧
    (App.chatDispatch um pa t g c).callAttempts.length ≤ 1 := by
  cases c <;> (simp only [App.chatDispatch]; try dsimp only
               repeat' split) <;>
    simp [App.mkOut, App.unexpectedOut]

theorem route_bodies_short (u : String) (dg : String → String → String) (d : RawDecision) :
    (Route.api_chat_route u dg d).bodies.length ≤ 1 := by
  unfold Route.api_chat_route
  dsimp only
  repeat' split
  all_goals simp [finishRoute_bodies]

theorem isAvailableTool_elim (tn : Option JVal) (h : App.isAvailableTool tn = true) :
    ∃ s ps, tn = some (.jstr s) ∧ App.toolParams s = some ps := by
  match tn with
  | none => simp [App.isAvailableTool] at h
  | some .jnull => simp [App.isAvailableTool] at h
  | some (.jbool b) => simp [App.isAvailableTool] at h
  | some (.jnum n) => simp [App.isAvailableTool] at h
  | some (.jarr l) => simp [App.isAvailableTool] at h
  | some (.jobj f) => simp [App.isAvailableTool] at h
  | some (.jstr s) =>
    simp only [App.isAvailableTool] at h
    obtain ⟨ps, hps⟩ := Option.isSome_iff_exists.mp h
    exact ⟨s, ps, rfl, hps⟩

theorem chatDispatch_bodies_bindOk (um pa : String)
    (t : String → List (String × JVal) → JVal) (g : String → String → String → String)
    (c : App.DecisionClass) (nm : String) (args : List (String × JVal))
    (hmem : (nm, args) ∈ (App.chatDispatch um pa t g c).bodiesRun) :
    ∃ params, App.toolParams nm = some params ∧ App.bindOk params args = true := by
  cases c with
  | toolCall tn ta =>
    by_cases h1 : App.isAvailableTool tn = true
    · obtain ⟨s, ps, htn, hps⟩ := isAvailableTool_elim tn h1
      subst htn
      simp only [App.chatDispatch, h1, if_true, pyStrOpt, pyStr] at hmem
      try dsimp only at hmem
      cases hta : ta.asObj with
      | none => simp [hta, App.unexpectedOut, App.mkOut] at hmem
      | some args2 =>
        simp only [hta] at hmem
        by_cases hb : App.bindOk ((App.toolParams s).getD []) args2 = true
        · simp only [hb, if_true] at hmem
          have hbs : App.bindOk ps args2 = true := by rwa [hps] at hb
          cases hrv : (t s args2).asObj with
          | none =>
            simp only [hrv, App.unexpectedOut, App.mkOut] at hmem
            simp at hmem
            obtain ⟨h1', h2'⟩ := hmem
            subst h1'; subst h2'
            exact ⟨ps, hps, hbs⟩
          | some outObj =>
            simp only [hrv] at hmem
            by_cases hsucc : pyTruthyOpt (objGet outObj "success") = true
            · simp only [hsucc, if_true] at hmem
              cases hfmt : App.formatToolSuccess s ("Agent selected tool: '" ++ s ++ "'") outObj with
              | ok triple =>
                simp only [hfmt, App.mkOut] at hmem
                obtain ⟨ai, action, sys⟩ := triple
                simp at hmem
                obtain ⟨h1', h2'⟩ := hmem
                subst h1'; subst h2'
                exact ⟨ps, hps, hbs⟩
              | error e =>
                simp only [hfmt, App.unexpectedOut, App.mkOut] at hmem
                simp at hmem
                obtain ⟨h1', h2'⟩ := hmem
                subst h1'; subst h2'
                exact ⟨ps, hps, hbs⟩
            · simp only [hsucc] at hmem
              simp only [App.formatToolFailure, App.mkOut] at hmem
              simp at hmem
              obtain ⟨h1', h2'⟩ := hmem
              subst h1'; subst h2'
              exact ⟨ps, hps, hbs⟩
        · simp only [hb, App.unexpectedOut, App.mkOut] at hmem
          simp at hmem
    · simp only [App.chatDispatch, h1, App.mkOut] at hmem
      simp at hmem
  | malformed raw emsg => simp [App.chatDispatch, App.mkOut] at hmem
  | notDict => simp [App.chatDispatch, App.unexpectedOut, App.mkOut] at hmem
  | llmCall lm sp =>
    simp only [App.chatDispatch] at hmem
    repeat' split at hmem
    all_goals simp [App.mkOut, App.unexpectedOut] at hmem
  | direct r => simp [App.chatDispatch, App.mkOut] at hmem
  | unhandled a => simp [App.chatDispatch, App.mkOut] at hmem

theorem chat_unknown_tool (u p : String)
    (t : String → List (String × JVal) → JVal) (g : String → String → String → String)
    (d : RawDecision) (tn : Option JVal) (ta : JVal)
    (hc : App.classify d = .toolCall tn ta)
    (hu : App.isAvailableTool tn = false) :
    (App.chat u p t g d).callAttempts = [] ∧
    (App.chat u p t g d).bodiesRun = [] ∧
    (App.chat u p t g d).agentAction = "orchestration_error" ∧
    (App.chat u p t g d).aiResponse =
      "Orchestrator requested unknown tool: " ++ pyStrOpt tn ++ "." := by
  unfold App.chat
  rw [hc]
  simp [App.chatDispatch, hu, App.mkOut]

theorem route_unknown_tool (u : String) (dg : String → String → String)
    (dts : List (String × JVal))
    (h1 : isStrEq (objGet dts "tool_name") "read_file" = false)
    (h2 : isStrEq (objGet dts "tool_name") "write_file" = false)
    (h3 : isStrEq (objGet dts "tool_name") "document_analysis" = false) :
    (Route.api_chat_route u dg (.parsed (.jobj
      [("action_type", .jstr "tool_call"), ("details", .jobj dts)]))).bodies = [] ∧
    (Route.api_chat_route u dg (.parsed (.jobj
      [("action_type", .jstr "tool_call"), ("details", .jobj dts)]))).answer =
      "Error: Unknown tool '" ++ pyStrOpt (objGet dts "tool_name") ++
        "' selected by orchestrator." := by
  have ha : objGet [("action_type", JVal.jstr "tool_call"), ("details", JVal.jobj dts)]
      "action_type" = some (.jstr "tool_call") := rfl
  have hd : objGet [("action_type", JVal.jstr "tool_call"), ("details", JVal.jobj dts)]
      "details" = some (.jobj dts) := rfl
  unfold Route.api_chat_route
  dsimp only [JVal.asObj]
  rw [ha, hd]
  simp only [show isStrEq (some (JVal.jstr "tool_call")) "tool_call" = true from rfl]
  dsimp only [Option.getD, JVal.asObj]
  simp [h1, h2, h3, finishRoute_bodies, finishRoute_answer_some]

theorem route_read_file_missing (u : String) (dg : String → String → String)
    (dts : List (String × JVal))
    (hn : objGet dts "tool_name" = some (.jstr "read_file"))
    (hf : pyTruthyOpt (objGet dts "filename") = false) :
    (Route.api_chat_route u dg (.parsed (.jobj
      [("action_type", .jstr "tool_call"), ("details", .jobj dts)]))).bodies = [] ∧
    (Route.api_chat_route u dg (.parsed (.jobj
      [("action_type", .jstr "tool_call"), ("details", .jobj dts)]))).answer =
      "Error: 'filename' not provided for read_file tool." := by
  have ha : objGet [("action_type", JVal.jstr "tool_call"), ("details", JVal.jobj dts)]
      "action_type" = some (.jstr "tool_call") := rfl
  have hd : objGet [("action_type", JVal.jstr "tool_call"), ("details", JVal.jobj dts)]
      "details" = some (.jobj dts) := rfl
  unfold Route.api_chat_route
  dsimp only [JVal.asObj]
  rw [ha, hd]
  simp only [show isStrEq (some (JVal.jstr "tool_call")) "tool_call" = true from rfl]
  dsimp only [Option.getD, JVal.asObj]
  simp only [hn, hf]
  simp only [show isStrEq (some (JVal.jstr "read_file")) "read_file" = true from rfl]
  simp [finishRoute_bodies, finishRoute_answer_some]

theorem call_ollama_attempts (m : String) (b : App.BackendResp) :
    (App.call_ollama m b).attempts = 1 := by
  cases b <;> rfl

theorem chat_malformed (u p : String)
    (t : String → List (String × JVal) → JVal) (g : String → String → String → String)
    (raw emsg : String) :
    (App.chat u p t g (.notJson raw emsg)).delegateCalls = [] ∧
    (App.chat u p t g (.notJson raw emsg)).agentAction = "orchestration_error" ∧
    (App.chat u p t g (.notJson raw emsg)).aiResponse =
      "Orchestrator response was not valid JSON. Error: " ++ emsg ++ ". Raw response: " ++ raw ∧
    ("Orchestration Error: JSON parsing failed (" ++ emsg ++ ").", "orchestration_error")
      ∈ (App.chat u p t g (.notJson raw emsg)).sysInfos := by
  refine ⟨rfl, rfl, rfl, ?_⟩
  simp [App.chat, App.chatDispatch, App.classify, App.mkOut, App.reasoningEvent]

theorem route_json_fallback (u : String) (dg : String → String → String) (raw emsg : String) :
    ("mistral", u) ∈ (Route.api_chat_route u dg (.notJson raw emsg)).delegates ∧
    ("System Error: Orchestrator response was not valid JSON. Raw: " ++ raw)
      ∈ (Route.api_chat_route u dg (.notJson raw emsg)).sysRows := by
  constructor <;>
    simp [Route.api_chat_route, finishRoute_delegates, finishRoute_sysRows]

/-! ## Claims -/

/-- Claim C1, counterexample: on a backend failure, `call_ollama` makes one
attempt and does not retry (the claim demands exactly two attempts), and
app.py's `chat`, receiving the resulting non-JSON error string, answers
with the orchestration-error text and invokes no delegate model at all —
there is no fallback `DirectResponse` through the default delegate with the
original user message. -/
theorem claim_C1_counterexample :
    (App.call_ollama "mistral" (.requestException "timeout")).attempts = 1 ∧
    ¬ ((App.call_ollama "mistral" (.requestException "timeout")).attempts = 2) ∧
    (App.chat "hello" "persona" (fun _ _ => .jnull) (fun _ _ _ => "resp")
      (.notJson (App.call_ollama "mistral" (.requestException "timeout")).text
        "Expecting value: line 1 column 1 (char 0)")).delegateCalls = [] ∧
    (App.chat "hello" "persona" (fun _ _ => .jnull) (fun _ _ _ => "resp")
      (.notJson (App.call_ollama "mistral" (.requestException "timeout")).text
        "Expecting value: line 1 column 1 (char 0)")).agentAction = "orchestration_error" :=
  ⟨rfl, by decide, rfl, rfl⟩

/-- Claim C1, amended: `call_ollama` performs exactly one HTTP attempt per
invocation, converting every failure into an error string it returns as the
response.  In app.py, a backend failure or any non-JSON output then takes
the decode-error path: the fixed error answer embedding the raw text,
`agent_action = "orchestration_error"`, a system-info row recording the
JSON failure — and no delegate-model invocation, so the original user
message is not replayed.  In app_chat_route.py, a decode failure does call
the default delegate (mistral) with the original user message verbatim and
records a system error row. -/
theorem claim_C1_amended :
    (∀ (m : String) (b : App.BackendResp), (App.call_ollama m b).attempts = 1) ∧
    (∀ (u p raw emsg : String) (t : String → List (String × JVal) → JVal)
        (g : String → String → String → String),
      (App.chat u p t g (.notJson raw emsg)).delegateCalls = [] ∧
      (App.chat u p t g (.notJson raw emsg)).agentAction = "orchestration_error" ∧
      (App.chat u p t g (.notJson raw emsg)).aiResponse =
        "Orchestrator response was not valid JSON. Error: " ++ emsg ++
          ". Raw response: " ++ raw ∧
      ("Orchestration Error: JSON parsing failed (" ++ emsg ++ ").", "orchestration_error")
        ∈ (App.chat u p t g (.notJson raw emsg)).sysInfos) ∧
    (∀ (u raw emsg : String) (dg : String → String → String),
      ("mistral", u) ∈ (Route.api_chat_route u dg (.notJson raw emsg)).delegates ∧
      ("System Error: Orchestrator response was not valid JSON. Raw: " ++ raw)
        ∈ (Route.api_chat_route u dg (.notJson raw emsg)).sysRows) :=
  ⟨call_ollama_attempts,
   fun u p raw emsg t g => chat_malformed u p t g raw emsg,
   fun u raw emsg dg => route_json_fallback u dg raw emsg⟩

/-- Claim C2, counterexample: with a decision backend that returns a
`tool_call` (and would return another on any further consultation), app.py
executes exactly one tool body and stops — not the five iterations the
claim requires — and its final state is the tool's formatted output, not a
`MAX_ITERATIONS_EXCEEDED` degraded answer. -/
theorem claim_C2_counterexample :
    (App.chat "hi" "persona"
      (fun _ _ => .jobj [("success", .jbool true), ("query", .jstr "x"), ("results", .jstr "r")])
      (fun _ _ _ => "resp")
      (.parsed (.jobj [("action_type", .jstr "tool_call"), ("tool_name", .jstr "internet_search"),
        ("tool_args", .jobj [("query", .jstr "x")])]))).bodiesRun.length = 1 ∧
    ¬ ((App.chat "hi" "persona"
      (fun _ _ => .jobj [("success", .jbool true), ("query", .jstr "x"), ("results", .jstr "r")])
      (fun _ _ _ => "resp")
      (.parsed (.jobj [("action_type", .jstr "tool_call"), ("tool_name", .jstr "internet_search"),
        ("tool_args", .jobj [("query", .jstr "x")])]))).bodiesRun.length = 5) ∧
    (App.chat "hi" "persona"
      (fun _ _ => .jobj [("success", .jbool true), ("query", .jstr "x"), ("results", .jstr "r")])
      (fun _ _ _ => "resp")
      (.parsed (.jobj [("action_type", .jstr "tool_call"), ("tool_name", .jstr "internet_search"),
        ("tool_args", .jobj [("query", .jstr "x")])]))).agentAction = "internet_search_success" :=
  ⟨rfl, by decide, rfl⟩

/-- Claim C2, amended: neither route has an orchestration loop.  Each
request consumes exactly one decision (the single orchestration
`call_ollama` stands outside any loop), executes at most one tool body and
evaluates at most one tool call expression, and formats that tool's output
directly as the final answer without re-deciding; there is no iteration
counter and no `MAX_ITERATIONS_EXCEEDED` state, and termination is
immediate. -/
theorem claim_C2_amended :
    (∀ (um pa : String) (t : String → List (String × JVal) → JVal)
        (g : String → String → String → String) (d : RawDecision),
      (App.chat um pa t g d).bodiesRun.length ≤ 1 ∧
      (App.chat um pa t g d).callAttempts.length ≤ 1) ∧
    (∀ (u : String) (dg : String → String → String) (d : RawDecision),
      (Route.api_chat_route u dg d).bodies.length ≤ 1) :=
  ⟨fun um pa t g d => chatDispatch_short um pa t g (App.classify d),
   route_bodies_short⟩

/-- Claim C3: in app_chat_route.py a non-JSON decision output does NOT end
in a normal response — the `JSONDecodeError` arm leaves `action_type`
unbound, and line 317 reads it outside every handler, so an
`UnboundLocalError` escapes to the caller.  The fallback delegate call with
the original message had already been made when the request died. -/
theorem claim_C3_escape :
    (Route.api_chat_route "hello" (fun _ _ => "resp")
      (.notJson "I am not JSON" "Expecting value: line 1 column 1 (char 0)")).isEscaped = true ∧
    ("mistral", "hello") ∈ (Route.api_chat_route "hello" (fun _ _ => "resp")
      (.notJson "I am not JSON" "Expecting value: line 1 column 1 (char 0)")).delegates :=
  ⟨rfl, List.mem_singleton.mpr rfl⟩

/-- Claim C4: a decoded `tool_call` whose tool name is not registered is
rejected before execution.  In app.py, no tool call expression is evaluated
and no executor body runs; the answer is the unknown-tool error and the
action `orchestration_error`.  In app_chat_route.py, a tool name that is
none of the three known ones runs no placeholder tool and answers with its
unknown-tool error. -/
theorem claim_C4_theorem :
    (∀ (u p : String) (t : String → List (String × JVal) → JVal)
        (g : String → String → String → String) (d : RawDecision)
        (tn : Option JVal) (ta : JVal),
      App.classify d = .toolCall tn ta →
      App.isAvailableTool tn = false →
      (App.chat u p t g d).callAttempts = [] ∧
      (App.chat u p t g d).bodiesRun = [] ∧
      (App.chat u p t g d).agentAction = "orchestration_error" ∧
      (App.chat u p t g d).aiResponse =
        "Orchestrator requested unknown tool: " ++ pyStrOpt tn ++ ".") ∧
    (∀ (u : String) (dg : String → String → String) (dts : List (String × JVal)),
      isStrEq (objGet dts "tool_name") "read_file" = false →
      isStrEq (objGet dts "tool_name") "write_file" = false →
      isStrEq (objGet dts "tool_name") "document_analysis" = false →
      (Route.api_chat_route u dg (.parsed (.jobj
        [("action_type", .jstr "tool_call"), ("details", .jobj dts)]))).bodies = [] ∧
      (Route.api_chat_route u dg (.parsed (.jobj
        [("action_type", .jstr "tool_call"), ("details", .jobj dts)]))).answer =
        "Error: Unknown tool '" ++ pyStrOpt (objGet dts "tool_name") ++
          "' selected by orchestrator.") :=
  ⟨chat_unknown_tool, route_unknown_tool⟩

/-- Witness for claim C4: the unregistered tool name "frobnicate". -/
theorem claim_C4_witness :
    (App.chat "hi" "p" (fun _ _ => JVal.jnull) (fun _ _ _ => "r")
      (.parsed (.jobj [("action_type", .jstr "tool_call"),
        ("tool_name", .jstr "frobnicate")]))).callAttempts = [] ∧
    (App.chat "hi" "p" (fun _ _ => JVal.jnull) (fun _ _ _ => "r")
      (.parsed (.jobj [("action_type", .jstr "tool_call"),
        ("tool_name", .jstr "frobnicate")]))).bodiesRun = [] ∧
    (App.chat "hi" "p" (fun _ _ => JVal.jnull) (fun _ _ _ => "r")
      (.parsed (.jobj [("action_type", .jstr "tool_call"),
        ("tool_name", .jstr "frobnicate")]))).agentAction = "orchestration_error" ∧
    (App.chat "hi" "p" (fun _ _ => JVal.jnull) (fun _ _ _ => "r")
      (.parsed (.jobj [("action_type", .jstr "tool_call"),
        ("tool_name", .jstr "frobnicate")]))).aiResponse =
      "Orchestrator requested unknown tool: frobnicate." :=
  claim_C4_theorem.1 "hi" "p" (fun _ _ => JVal.jnull) (fun _ _ _ => "r")
    (.parsed (.jobj [("action_type", .jstr "tool_call"), ("tool_name", .jstr "frobnicate")]))
    (some (.jstr "frobnicate")) (.jobj []) rfl rfl

/-- Claim C5, counterexample: app.py performs no argument validation before
invoking a tool executor.  For a `tool_call` naming `read_file` with empty
arguments, the call expression `tool_func(**tool_args)` is evaluated (one
call attempt) even though the required `filename` is missing; the failure
is the generic caught-exception path labelled `orchestration_error`, not an
`ArgumentValidationError`. -/
theorem claim_C5_counterexample :
    (App.chat "hi" "persona" (fun _ _ => .jnull) (fun _ _ _ => "resp")
      (.parsed (.jobj [("action_type", .jstr "tool_call"), ("tool_name", .jstr "read_file"),
        ("tool_args", .jobj [])]))).callAttempts = [("read_file", [])] ∧
    (App.chat "hi" "persona" (fun _ _ => .jnull) (fun _ _ _ => "resp")
      (.parsed (.jobj [("action_type", .jstr "tool_call"), ("tool_name", .jstr "read_file"),
        ("tool_args", .jobj [])]))).bodiesRun = [] ∧
    (App.chat "hi" "persona" (fun _ _ => .jnull) (fun _ _ _ => "resp")
      (.parsed (.jobj [("action_type", .jstr "tool_call"), ("tool_name", .jstr "read_file"),
        ("tool_args", .jobj [])]))).agentAction = "orchestration_error" ∧
    ¬ ((App.chat "hi" "persona" (fun _ _ => .jnull) (fun _ _ _ => "resp")
      (.parsed (.jobj [("action_type", .jstr "tool_call"), ("tool_name", .jstr "read_file"),
        ("tool_args", .jobj [])]))).callAttempts = []) :=
  ⟨rfl, rfl, rfl, fun h => by
    have h2 : (1 : Nat) = 0 := congrArg List.length h
    exact absurd h2 (by decide)⟩

/-- Claim C5, amended: no schema-driven validation exists.  In app.py a
tool executor's body runs only when the provided keyword arguments bind the
function's parameters exactly (so a missing required argument never reaches
the body, but the check is CPython call binding at the invocation itself,
surfacing as a caught `TypeError` on the generic `orchestration_error`
path).  In app_chat_route.py, the read_file branch checks its hardcoded
`filename` for truthiness and, when it is missing, answers with the message
naming the parameter without running the tool. -/
theorem claim_C5_amended :
    (∀ (um pa : String) (t : String → List (String × JVal) → JVal)
        (g : String → String → String → String) (d : RawDecision)
        (nm : String) (args : List (String × JVal)),
      (nm, args) ∈ (App.chat um pa t g d).bodiesRun →
      ∃ params, App.toolParams nm = some params ∧ App.bindOk params args = true) ∧
    (∀ (u : String) (dg : String → String → String) (dts : List (String × JVal)),
      objGet dts "tool_name" = some (.jstr "read_file") →
      pyTruthyOpt (objGet dts "filename") = false →
      (Route.api_chat_route u dg (.parsed (.jobj
        [("action_type", .jstr "tool_call"), ("details", .jobj dts)]))).bodies = [] ∧
      (Route.api_chat_route u dg (.parsed (.jobj
        [("action_type", .jstr "tool_call"), ("details", .jobj dts)]))).answer =
        "Error: 'filename' not provided for read_file tool.") :=
  ⟨fun um pa t g d nm args hmem =>
      chatDispatch_bodies_bindOk um pa t g (App.classify d) nm args hmem,
   route_read_file_missing⟩

/-- Witness for claim C5: the body of `internet_search` runs on a bound
call, whence its declared parameter list is exactly matched. -/
theorem claim_C5_witness :
    ∃ params, App.toolParams "internet_search" = some params ∧
      App.bindOk params [("query", JVal.jstr "x")] = true :=
  claim_C5_amended.1 "hi" "p"
    (fun _ _ => .jobj [("success", .jbool true), ("query", .jstr "x"), ("results", .jstr "r")])
    (fun _ _ _ => "resp")
    (.parsed (.jobj [("action_type", .jstr "tool_call"), ("tool_name", .jstr "internet_search"),
      ("tool_args", .jobj [("query", .jstr "x")])]))
    "internet_search" [("query", JVal.jstr "x")]
    (List.mem_singleton.mpr rfl)

/-- Claim C6, counterexample: registering two tools under the same name
raises no `DuplicateToolError` — `discover_tools` is total — and the final
registry maps the name to the LATER function, so the earlier registration
is silently replaced, not preserved. -/
theorem claim_C6_counterexample :
    AgentCore.dictGet (AgentCore.discover_tools [("dup_tool", 1), ("dup_tool", 2)]) "dup_tool"
      = some 2 ∧
    ¬ (AgentCore.dictGet (AgentCore.discover_tools [("dup_tool", 1), ("dup_tool", 2)]) "dup_tool"
      = some 1) :=
  ⟨rfl, by decide⟩

/-- Claim C6, amended: `tool_functions[name] = func` always succeeds and the
registry afterwards maps the name to the newly supplied function — a
registration under an existing name silently replaces the earlier binding
(Python dict assignment), and no `DuplicateToolError` exists anywhere in
the code. -/
theorem claim_C6_amended (m : List (String × Nat)) (k : String) (v : Nat) :
    AgentCore.dictGet (AgentCore.dictSet m k v) k = some v := by
  induction m with
  | nil => simp [AgentCore.dictSet, AgentCore.dictGet, List.find?]
  | cons p rest ih =>
    rw [dictSet_cons]
    by_cases hp : p.1 = k
    · simp [AgentCore.dictGet, List.find?, hp]
    · simp [AgentCore.dictGet, List.find?, hp] at ih ⊢
      exact ih

/-- Claim C7: decode is a pure, deterministic function of the raw backend
text.  The decoded decision of app.py's `chat` (the `classify` step: parse,
`action_type` dispatch and field extraction, against the fixed
`AVAILABLE_TOOLS` registry and the fixed delegate set) is identical across
any two requests carrying the same raw output, whatever their user message,
profile, tool implementations or delegate backends — the same Action, or
the same error, every time. -/
theorem claim_C7_theorem (d : RawDecision)
    (u1 u2 p1 p2 : String)
    (t1 t2 : String → List (String × JVal) → JVal)
    (g1 g2 : String → String → String → String) :
    (App.chat u1 p1 t1 g1 d).decision = (App.chat u2 p2 t2 g2 d).decision := rfl

/-- Claim C8, counterexample: with six stored messages whose last five
include a `system-info` row, the condensed history has four entries — it is
not "exactly the last 5 turns" under either reading: the window of the last
five messages loses its system-info member, and the fifth-most-recent
user/ai turn ("t1") is absent as well.  The window size 5 is also a
hardcoded literal, not a configurable N. -/
theorem claim_C8_counterexample :
    App.condenseHistory
      [⟨"user", "t1"⟩, ⟨"ai", "t2"⟩, ⟨"user", "t3"⟩, ⟨"ai", "t4"⟩, ⟨"user", "t5"⟩,
        ⟨"system-info", "t6"⟩]
      = [("assistant", "t2"), ("user", "t3"), ("assistant", "t4"), ("user", "t5")] ∧
    ¬ ((App.condenseHistory
      [⟨"user", "t1"⟩, ⟨"ai", "t2"⟩, ⟨"user", "t3"⟩, ⟨"ai", "t4"⟩, ⟨"user", "t5"⟩,
        ⟨"system-info", "t6"⟩]).length = 5) ∧
    ¬ (("user", "t1") ∈ App.condenseHistory
      [⟨"user", "t1"⟩, ⟨"ai", "t2"⟩, ⟨"user", "t3"⟩, ⟨"ai", "t4"⟩, ⟨"user", "t5"⟩,
        ⟨"system-info", "t6"⟩]) :=
  ⟨rfl, by decide, by decide⟩

/-- Claim C8, amended: the condensed history `call_ollama` builds consists
of the `user`/`ai` rows among the last 5 stored messages (5 is hardcoded):
it never exceeds five entries, every entry originates in the last-5 window
(so nothing older is ever included), and when the window holds only
`user`/`ai` rows the condensed history is exactly that window in order. -/
theorem claim_C8_amended :
    (∀ h : List App.HistMsg, (App.condenseHistory h).length ≤ 5) ∧
    (∀ (h : List App.HistMsg) (e : String × String),
      e ∈ App.condenseHistory h →
      ∃ m, m ∈ App.lastN 5 h ∧ App.roleOf m = some e) ∧
    (∀ h : List App.HistMsg,
      (∀ m ∈ App.lastN 5 h, m.sender = "user" ∨ m.sender = "ai") →
      App.condenseHistory h = (App.lastN 5 h).map
        (fun m => (if m.sender == "user" then "user" else "assistant", m.text))) := by
  refine ⟨?_, ?_, ?_⟩
  · intro h
    rw [condenseHistory_eq]
    calc ((App.lastN 5 h).filterMap App.roleOf).length
        ≤ (App.lastN 5 h).length := List.length_filterMap_le _ _
      _ ≤ 5 := by
          unfold App.lastN
          rw [List.length_drop]
          omega
  · intro h e he
    rw [condenseHistory_eq] at he
    exact List.mem_filterMap.mp he
  · intro h hall
    rw [condenseHistory_eq]
    exact filterMap_roleOf_all _ hall

/-- Witness for claim C8 at a one-message history of a user turn. -/
theorem claim_C8_witness :
    App.condenseHistory [⟨"user", "a"⟩] =
      (App.lastN 5 ([⟨"user", "a"⟩] : List App.HistMsg)).map
      (fun m => (if m.sender == "user" then "user" else "assistant", m.text)) :=
  claim_C8_amended.2.2 [⟨"user", "a"⟩] (by decide)

/-- Claim C9, counterexample: app.py's `_resolve_filepath` has no `..`
component check, and its string-prefix guard accepts
"../agent_workspacexx/secret" because the escaped absolute path merely
EXTENDS the workspace path as a string.  app.py's `read_file_tool` then
reads a file whose resolved location is outside the workspace directory. -/
theorem claim_C9_counterexample :
    (FileTools.read_file_tool_app
      ⟨fun _ => true, fun _ => true, fun _ => "secret-contents"⟩
      "../agent_workspacexx/secret").accessed =
      some "/home/user/psi_pwa_linux_new/agent_workspace/../agent_workspacexx/secret".data ∧
    (FileTools.read_file_tool_app
      ⟨fun _ => true, fun _ => true, fun _ => "secret-contents"⟩
      "../agent_workspacexx/secret").success = true ∧
    FileTools.insideWorkspace
      "/home/user/psi_pwa_linux_new/agent_workspace/../agent_workspacexx/secret".data = false :=
  ⟨rfl, rfl, rfl⟩

/-- Claim C9, amended: the file_tools.py versions of `read_file_tool` and
`write_file_tool` are safe — `_resolve_filepath` strips leading slashes,
rejects every `..` path component and guards with the absolute-prefix
check, so any filesystem path either tool touches resolves inside
`AGENT_WORKSPACE_DIR`.  The app.py copy of `_resolve_filepath` omits the
`..` check and its string-prefix guard is bypassable (see the
counterexample). -/
theorem claim_C9_amended :
    (∀ (fs : FileTools.FileSys) (filename : String) (p : List Char),
      (FileTools.read_file_tool fs filename).accessed = some p →
      FileTools.insideWorkspace p = true) ∧
    (∀ (filename content : String) (p : List Char),
      (FileTools.write_file_tool filename content).accessed = some p →
      FileTools.insideWorkspace p = true) := by
  constructor
  · intro fs filename p h
    unfold FileTools.read_file_tool at h
    cases hr : FileTools._resolve_filepath filename with
    | error e => rw [hr] at h; simp at h
    | ok fp =>
      rw [hr] at h
      have hin := resolve_inside filename fp hr
      repeat' split at h
      all_goals simp_all
  · intro filename content p h
    unfold FileTools.write_file_tool at h
    cases hr : FileTools._resolve_filepath filename with
    | error e => rw [hr] at h; simp at h
    | ok fp =>
      rw [hr] at h
      have hin := resolve_inside filename fp hr
      simp at h
      rwa [← h]

/-- Witness for claim C9: reading "notes.txt" touches a path inside the
workspace. -/
theorem claim_C9_witness :
    FileTools.insideWorkspace
      (String.data "/home/user/psi_pwa_linux_new/agent_workspace/notes.txt") = true :=
  claim_C9_amended.1
    (FileTools.FileSys.mk (fun _ => true) (fun _ => true) (fun _ => "hi"))
    "notes.txt"
    (String.data "/home/user/psi_pwa_linux_new/agent_workspace/notes.txt") rfl

/-- Claim C10: the simulated tools are total and never fail.
`document_processing_tool` always succeeds with `word_count` equal to the
number of whitespace-separated words (verified against an independent
transition-counting definition) and `char_count` equal to the number of
characters; `internet_search_tool` always succeeds with a non-empty results
string, for every query and clock reading. -/
theorem claim_C10_theorem :
    (∀ s : String,
      (DocTools.document_processing_tool s).success = true ∧
      (DocTools.document_processing_tool s).word_count = DocTools.countWords s ∧
      (DocTools.document_processing_tool s).char_count = s.data.length) ∧
    (∀ now q : String,
      (SearchTools.internet_search_tool now q).success = true ∧
      (SearchTools.internet_search_tool now q).results ≠ "") :=
  ⟨fun s => ⟨rfl, word_count_eq s, rfl⟩, search_total⟩

end PSI
